import Mathlib

/-!
Verification development for the Focus Guardian repository.

The definitions below are shallow embeddings of the TypeScript source:
* `types.ts` — `StudyStatus`, `AnalysisResult`, session statistics;
* the application root component — `handleStatusChange` (debounce
  aggregator and statistics), `getTargetVolume` (audio ducking), the
  session start/stop logic including the `focusScore` computation;
* `components/WebcamMonitor.tsx` — `captureAndAnalyze` / `triggerAnalysis`
  in-flight guarding, modelled as a step function over a sampler state;
* `services/geminiService.ts` — `analyzeFrame` with its data-URI prefix
  stripping, markdown-fence cleaning, retry/backoff loop and fallback
  results.  The external classifier and `JSON.parse` are oracles.

JavaScript numbers that only ever hold integers are modelled as `Nat`/`Int`;
fractional values (volumes, confidences, the focus-score division) as `ℚ`.
JavaScript strings are Lean `String`s; the string operations the source
uses (`startsWith`, `replace` of an anchored literal prefix/suffix,
`includes`, `trim`) are modelled on the underlying character lists.
-/

namespace FocusGuardian

/-- `StudyStatus` enum from `types.ts`. -/
inductive StudyStatus where
  | idle
  | studying
  | distracted
  | absent
deriving DecidableEq, Repr

/-- `AnalysisResult` interface from `types.ts`. -/
structure AnalysisResult where
  status : StudyStatus
  reason : String
  confidence : ℚ
deriving DecidableEq, Repr

/-- The `statsRef` record of the App component:
`{ studying, distracted, absent, total }`. -/
structure SessionStats where
  studying : Nat
  distracted : Nat
  absent : Nat
  total : Nat
deriving DecidableEq, Repr

/-- The pieces of App state that `handleStatusChange` reads and writes:
`isMonitoringRef.current`, `statsRef.current`,
`consecutiveBadChecksRef.current` and the `currentResult` React state. -/
structure AppState where
  isMonitoring : Bool
  stats : SessionStats
  consecutiveBad : Nat
  currentResult : AnalysisResult
deriving DecidableEq, Repr

/-- The condition `status === DISTRACTED || status === ABSENT` used both by
`handleStatusChange` and by `getTargetVolume`. -/
def isBad : StudyStatus → Bool
  | .distracted => true
  | .absent => true
  | _ => false

/-- The statistics update at the top of `handleStatusChange`:
`total += 1`, then the bucket matching the raw status (if any). -/
def bumpStats (stats : SessionStats) (s : StudyStatus) : SessionStats :=
  let t := { stats with total := stats.total + 1 }
  if s = .studying then { t with studying := t.studying + 1 }
  else if s = .distracted then { t with distracted := t.distracted + 1 }
  else if s = .absent then { t with absent := t.absent + 1 }
  else t

/-- `handleStatusChange` from the App component.  Ignores the result when
monitoring is off; always records raw statistics; debounces the UI-visible
`currentResult` with the consecutive-bad counter against `sensitivity`. -/
def handleStatusChange (sensitivity : Nat) (st : AppState)
    (result : AnalysisResult) : AppState :=
  if !st.isMonitoring then st
  else
    let stats := bumpStats st.stats result.status
    if isBad result.status then
      let c := st.consecutiveBad + 1
      if sensitivity ≤ c then
        { st with stats := stats, consecutiveBad := c, currentResult := result }
      else
        { st with stats := stats, consecutiveBad := c }
    else
      { st with stats := stats, consecutiveBad := 0, currentResult := result }

/-- Ingest a whole sequence of raw classification results, in order. -/
def ingestAll (sensitivity : Nat) (st : AppState)
    (l : List AnalysisResult) : AppState :=
  l.foldl (handleStatusChange sensitivity) st

/-- The START branch of `toggleMonitoring`: monitoring on, statistics
reset to zero, consecutive-bad counter reset to zero. -/
def startSession (st : AppState) : AppState :=
  { st with isMonitoring := true, stats := ⟨0, 0, 0, 0⟩, consecutiveBad := 0 }

/-- The focus-score computation in the STOP branch of `toggleMonitoring`:
`totalChecks > 0 ? Math.round((studying / totalChecks) * 100) : 0`. -/
def focusScore (stats : SessionStats) : ℤ :=
  if 0 < stats.total then round (((stats.studying : ℚ) / (stats.total : ℚ)) * 100)
  else 0

/-- Number of consecutive bad (Distracted/Absent) statuses at the start of
a list, stopping at the first non-bad status. -/
def leadBad : List StudyStatus → Nat
  | [] => 0
  | x :: t => if isBad x then leadBad t + 1 else 0

/-- Number of consecutive bad statuses at the end of a list: the count of
Distracted/Absent results since the last non-bad result (or the start). -/
def trailingBadCount (l : List StudyStatus) : Nat :=
  leadBad l.reverse

/-- Number of occurrences of a given status in a list of raw statuses. -/
def countStatus (x : StudyStatus) : List StudyStatus → Nat
  | [] => 0
  | y :: t => (if y = x then 1 else 0) + countStatus x t

/-- The ducking computation `getTargetVolume` of the App component:
duck to 20 percent of the base volume when the stable status is
Distracted or Absent. -/
def getTargetVolume (status : StudyStatus) (musicVolume : ℚ) : ℚ :=
  if status = .distracted ∨ status = .absent then musicVolume * (0.2 : ℚ)
  else musicVolume

/-- The sampler state of `WebcamMonitor`: the `isMonitoring` prop, the
`isProcessingRef` in-flight guard, whether the video/canvas refs are
attached, and whether the video element is producing frames
(`readyState >= 2 && videoWidth > 0`). -/
structure SamplerState where
  monitoring : Bool
  inFlight : Bool
  refsReady : Bool
  videoReady : Bool
deriving DecidableEq, Repr

/-- Events that drive the sampler: an interval/warm-up timer callback, a
manual refresh request, and completion of an in-flight classification. -/
inductive SamplerEvent where
  | tick
  | manual
  | finish
deriving DecidableEq, Repr

/-- `captureAndAnalyze` from `WebcamMonitor`: returns the new state and
whether a classification call was started.  Bails out silently when the
refs are missing, a capture is in flight, or the video is not ready;
otherwise sets the in-flight guard and starts the call. -/
def captureAndAnalyze (s : SamplerState) : SamplerState × Bool :=
  if !s.refsReady || s.inFlight then (s, false)
  else if !s.videoReady then (s, false)
  else ({ s with inFlight := true }, true)

/-- `triggerAnalysis` from `WebcamMonitor`'s imperative handle: honoured
only when monitoring is active and nothing is in flight. -/
def triggerAnalysis (s : SamplerState) : SamplerState × Bool :=
  if s.monitoring && !s.inFlight then captureAndAnalyze s
  else (s, false)

/-- One sampler step: a timer tick runs `captureAndAnalyze`, a manual
request runs `triggerAnalysis`, completion clears the in-flight guard
(the `finally` block). -/
def samplerStep (s : SamplerState) : SamplerEvent → SamplerState × Bool
  | .tick => captureAndAnalyze s
  | .manual => triggerAnalysis s
  | .finish => ({ s with inFlight := false }, false)

/-- Is the first list a prefix of the second? -/
def listIsPre : List Char → List Char → Bool
  | [], _ => true
  | a :: as, l =>
    match l with
    | [] => false
    | b :: bs => a == b && listIsPre as bs

/-- JavaScript `s.startsWith(p)`, on the underlying character lists. -/
def strStarts (s p : String) : Bool :=
  listIsPre p.data s.data

/-- JavaScript `s.endsWith(p)`, on the underlying character lists. -/
def strEnds (s p : String) : Bool :=
  listIsPre p.data.reverse s.data.reverse

/-- Drop the first `n` characters of a string. -/
def strDrop (s : String) (n : Nat) : String :=
  ⟨s.data.drop n⟩

/-- Drop the last `n` characters of a string. -/
def strDropEnd (s : String) (n : Nat) : String :=
  ⟨(s.data.reverse.drop n).reverse⟩

/-- Does `p` occur as a contiguous block inside `l`? -/
def listHasSub (p : List Char) : List Char → Bool
  | [] => p.isEmpty
  | c :: t => listIsPre p (c :: t) || listHasSub p t

/-- JavaScript `s.includes(p)`. -/
def strHasSub (s p : String) : Bool :=
  listHasSub p.data s.data

/-- JavaScript `s.trim()`: strip whitespace from both ends. -/
def strTrim (s : String) : String :=
  ⟨((s.data.dropWhile Char.isWhitespace).reverse.dropWhile
      Char.isWhitespace).reverse⟩

/-- The first line of `analyzeFrame`:
`base64Image.replace(/^data:image\/(png|jpeg|jpg);base64,/, "")` —
the anchored regex strips exactly one of the three literal prefixes. -/
def cleanBase64 (base64Image : String) : String :=
  if strStarts base64Image "data:image/png;base64," then
    strDrop base64Image "data:image/png;base64,".length
  else if strStarts base64Image "data:image/jpeg;base64," then
    strDrop base64Image "data:image/jpeg;base64,".length
  else if strStarts base64Image "data:image/jpg;base64," then
    strDrop base64Image "data:image/jpg;base64,".length
  else base64Image

/-- Strip a trailing fence: `replace(/```$/, "")`. -/
def stripClosingFence (s : String) : String :=
  if strEnds s "```" then strDropEnd s 3 else s

/-- The markdown-fence cleaning in `analyzeFrame`: trim, then strip a
leading language-tagged or bare fence and a trailing fence. -/
def stripCodeFence (raw : String) : String :=
  let t := strTrim raw
  if strStarts t "```json" then stripClosingFence (strDrop t 7)
  else if strStarts t "```" then stripClosingFence (strDrop t 3)
  else t

/-- A JavaScript error value as `analyzeFrame`'s catch block inspects it:
possible `status` and `code` numeric fields and a `message` string. -/
structure JsError where
  status : Option ℤ
  code : Option ℤ
  message : Option String
deriving DecidableEq, Repr

/-- JavaScript `a || b` on possibly-missing numbers (`0` is falsy). -/
def jsOrInt : Option ℤ → Option ℤ → Option ℤ
  | some v, b => if v = 0 then b else some v
  | none, b => b

/-- The overload test in the catch block:
`errorCode === 503 || message.includes("overloaded") ||
message.includes("UNAVAILABLE")` with
`errorCode = error?.status || error?.code`. -/
def isOverloaded (e : JsError) : Bool :=
  let errorCode := jsOrInt e.status e.code
  let errorMessage := e.message.getD ""
  errorCode == some 503 || strHasSub errorMessage "overloaded"
    || strHasSub errorMessage "UNAVAILABLE"

/-- Outcome of one `ai.models.generateContent` call: either the promise
resolves with a (possibly empty/missing) text reply, or it rejects with
an error value. -/
inductive GenOutcome where
  | reply (text : Option String)
  | threw (e : JsError)

/-- Outcome of one iteration of the try block. -/
inductive TryOutcome where
  | ok (r : AnalysisResult)
  | caught (e : JsError)

/-- One iteration of the try block of `analyzeFrame`: call the external
classifier with the cleaned payload, throw on an empty reply, strip
markdown fences, and `JSON.parse` the text (the parser is an oracle that
either yields an `AnalysisResult` or throws).  All throws land in
`TryOutcome.caught`. -/
def runAttempt (gen : Nat → String → GenOutcome)
    (parse : String → Except JsError AnalysisResult)
    (payload : String) (attempt : Nat) : TryOutcome :=
  match gen attempt payload with
  | .threw e => .caught e
  | .reply t =>
    let text := t.getD ""
    if text = "" then .caught ⟨none, none, some "No response from AI"⟩
    else
      match parse (stripCodeFence text) with
      | .ok r => .ok r
      | .error e => .caught e

/-- `MAX_RETRIES` from `analyzeFrame`. -/
def MAX_RETRIES : Nat := 3

/-- The resolved value of `analyzeFrame` together with how many classifier
calls were made and which backoff delays (ms) were awaited between them. -/
structure CallTrace where
  result : AnalysisResult
  calls : Nat
  delays : List Nat
deriving DecidableEq, Repr

/-- The `while (attempt < MAX_RETRIES)` loop of `analyzeFrame`.  `fuel`
is the number of loop iterations still allowed, i.e. exactly
`MAX_RETRIES - attempt`; the `fuel = 0` case is the loop exiting by its
condition, which returns the final `"Service unavailable"` fallback.
On an overload error with `attempt < MAX_RETRIES - 1` the loop waits
`1000 * 2 ^ (attempt - 1)` ms (after incrementing `attempt`) and
retries; every other error returns the catch-block fallback at once. -/
def analyzeLoop (gen : Nat → String → GenOutcome)
    (parse : String → Except JsError AnalysisResult) (payload : String) :
    Nat → Nat → CallTrace
  | _, 0 => ⟨⟨.idle, "Service unavailable", 0⟩, 0, []⟩
  | attempt, fuel + 1 =>
    match runAttempt gen parse payload attempt with
    | .ok r => ⟨r, 1, []⟩
    | .caught e =>
      if isOverloaded e && decide (attempt < MAX_RETRIES - 1) then
        let next := attempt + 1
        let delay := 1000 * 2 ^ (next - 1)
        let rest := analyzeLoop gen parse payload next fuel
        ⟨rest.result, rest.calls + 1, delay :: rest.delays⟩
      else
        ⟨⟨.idle,
           if isOverloaded e then "Server busy, retrying..."
           else "Analysis failed", 0⟩, 1, []⟩

/-- `analyzeFrame` from `services/geminiService.ts`: strip the data-URI
prefix and run the retry loop starting at `attempt = 0`. -/
def analyzeFrame (gen : Nat → String → GenOutcome)
    (parse : String → Except JsError AnalysisResult)
    (base64Image : String) : CallTrace :=
  analyzeLoop gen parse (cleanBase64 base64Image) 0 MAX_RETRIES

/-- The shape of every synthetic failure result `analyzeFrame` can
resolve with: status Idle, confidence 0, and one of the three literal
fallback messages. -/
def syntheticFallback (r : AnalysisResult) : Prop :=
  r.status = .idle ∧ r.confidence = 0 ∧
    (r.reason = "Analysis failed" ∨ r.reason = "Server busy, retrying..." ∨
      r.reason = "Service unavailable")

/-! ### Aggregator lemmas -/

theorem handleStatusChange_isMonitoring (s : Nat) (st : AppState)
    (r : AnalysisResult) :
    (handleStatusChange s st r).isMonitoring = st.isMonitoring := by
  cases hm : st.isMonitoring <;>
    by_cases hb : isBad r.status = true <;>
      by_cases hle : s ≤ st.consecutiveBad + 1 <;>
        simp [handleStatusChange, hm, hb, hle]

theorem ingestAll_isMonitoring (s : Nat) (st : AppState)
    (l : List AnalysisResult) :
    (ingestAll s st l).isMonitoring = st.isMonitoring := by
  induction l generalizing st with
  | nil => rfl
  | cons r t ih =>
    show (ingestAll s (handleStatusChange s st r) t).isMonitoring = _
    rw [ih, handleStatusChange_isMonitoring]

theorem ingestAll_append_singleton (s : Nat) (st : AppState)
    (l : List AnalysisResult) (r : AnalysisResult) :
    ingestAll s st (l ++ [r]) = handleStatusChange s (ingestAll s st l) r := by
  simp [ingestAll, List.foldl_append]

theorem handleStatusChange_consecutive (s : Nat) (st : AppState)
    (r : AnalysisResult) (h : st.isMonitoring = true) :
    (handleStatusChange s st r).consecutiveBad =
      if isBad r.status then st.consecutiveBad + 1 else 0 := by
  by_cases hb : isBad r.status = true <;>
    by_cases hle : s ≤ st.consecutiveBad + 1 <;>
      simp [handleStatusChange, h, hb, hle]

theorem trailingBadCount_append (m : List StudyStatus) (x : StudyStatus) :
    trailingBadCount (m ++ [x]) =
      if isBad x then trailingBadCount m + 1 else 0 := by
  simp [trailingBadCount, List.reverse_append, leadBad]

theorem ingestAll_consecutiveBad (s : Nat) (st0 : AppState)
    (l : List AnalysisResult) (h0 : st0.isMonitoring = true)
    (hc : st0.consecutiveBad = 0) :
    (ingestAll s st0 l).consecutiveBad =
      trailingBadCount (l.map AnalysisResult.status) := by
  induction l using List.reverseRecOn with
  | nil => simpa [ingestAll, trailingBadCount, leadBad] using hc
  | append_singleton t r ih =>
    have hm : (ingestAll s st0 t).isMonitoring = true := by
      rw [ingestAll_isMonitoring]; exact h0
    rw [ingestAll_append_singleton, handleStatusChange_consecutive _ _ _ hm,
      List.map_append, List.map_singleton, trailingBadCount_append, ih]

theorem handleStatusChange_current_bad_lt (s : Nat) (st : AppState)
    (r : AnalysisResult) (h : st.isMonitoring = true)
    (hb : isBad r.status = true) (hlt : st.consecutiveBad + 1 < s) :
    (handleStatusChange s st r).currentResult = st.currentResult := by
  simp [handleStatusChange, h, hb, Nat.not_le.mpr hlt]

theorem handleStatusChange_current_bad_ge (s : Nat) (st : AppState)
    (r : AnalysisResult) (h : st.isMonitoring = true)
    (hb : isBad r.status = true) (hge : s ≤ st.consecutiveBad + 1) :
    (handleStatusChange s st r).currentResult = r := by
  simp [handleStatusChange, h, hb, hge]

theorem handleStatusChange_current_good (s : Nat) (st : AppState)
    (r : AnalysisResult) (h : st.isMonitoring = true)
    (hb : isBad r.status = false) :
    (handleStatusChange s st r).currentResult = r ∧
      (handleStatusChange s st r).consecutiveBad = 0 := by
  constructor <;> simp [handleStatusChange, h, hb]

/-- Claim C1: for every sensitivity `s ∈ [1,5]`, from a session-start state
(monitoring on, consecutive-bad counter zero), after ingesting any run of
raw results followed by one more result `r`: if `r` is Distracted/Absent
and the run of consecutive bad raw results ending at `r` is still shorter
than `s`, the stable (UI-visible) result is unchanged; once that run
reaches `s`, the stable result becomes `r`; and a Studying/Idle result
immediately becomes the stable result and resets the counter to `0`. -/
theorem debounce_threshold_invariant (s : Nat) (hs1 : 1 ≤ s) (hs5 : s ≤ 5)
    (st0 : AppState) (h0 : st0.isMonitoring = true)
    (hc : st0.consecutiveBad = 0)
    (l : List AnalysisResult) (r : AnalysisResult) :
    (isBad r.status = true →
      (trailingBadCount ((l ++ [r]).map AnalysisResult.status) < s →
        (ingestAll s st0 (l ++ [r])).currentResult =
          (ingestAll s st0 l).currentResult) ∧
      (s ≤ trailingBadCount ((l ++ [r]).map AnalysisResult.status) →
        (ingestAll s st0 (l ++ [r])).currentResult = r)) ∧
    (isBad r.status = false →
      (ingestAll s st0 (l ++ [r])).currentResult = r ∧
      (ingestAll s st0 (l ++ [r])).consecutiveBad = 0) := by
  have hm : (ingestAll s st0 l).isMonitoring = true := by
    rw [ingestAll_isMonitoring]; exact h0
  have hcount := ingestAll_consecutiveBad s st0 l h0 hc
  have htrail : trailingBadCount ((l ++ [r]).map AnalysisResult.status) =
      if isBad r.status then
        trailingBadCount (l.map AnalysisResult.status) + 1
      else 0 := by
    rw [List.map_append, List.map_singleton, trailingBadCount_append]
  refine ⟨fun hb => ⟨fun hlt => ?_, fun hge => ?_⟩, fun hb => ?_⟩
  · rw [ingestAll_append_singleton]
    rw [htrail, if_pos hb, ← hcount] at hlt
    exact handleStatusChange_current_bad_lt s _ r hm hb hlt
  · rw [ingestAll_append_singleton]
    rw [htrail, if_pos hb, ← hcount] at hge
    exact handleStatusChange_current_bad_ge s _ r hm hb hge
  · rw [ingestAll_append_singleton]
    exact handleStatusChange_current_good s _ r hm hb

/-- Concrete instance of C1: sensitivity 2, raw run
[Studying, Distracted] then one more Distracted — below the threshold the
stable result stayed on the Studying result, at the threshold it becomes
the Distracted result. -/
theorem debounce_threshold_invariant_witness :
    AppState.currentResult
        (ingestAll 2 ⟨true, ⟨0, 0, 0, 0⟩, 0, ⟨.idle, "", 0⟩⟩
          ([⟨.studying, "ok", 0.9⟩] ++ [⟨.distracted, "phone", 0.8⟩])) =
      ⟨.studying, "ok", 0.9⟩ ∧
    AppState.currentResult
        (ingestAll 2 ⟨true, ⟨0, 0, 0, 0⟩, 0, ⟨.idle, "", 0⟩⟩
          ([⟨.studying, "ok", 0.9⟩, ⟨.distracted, "phone", 0.8⟩] ++
            [⟨.absent, "gone", 0.7⟩])) =
      ⟨.absent, "gone", 0.7⟩ := by
  constructor
  · exact ((debounce_threshold_invariant 2 (by decide) (by decide)
      ⟨true, ⟨0, 0, 0, 0⟩, 0, ⟨.idle, "", 0⟩⟩ rfl rfl
      [⟨.studying, "ok", 0.9⟩] ⟨.distracted, "phone", 0.8⟩).1
        (by decide)).1 (by decide) |>.trans (by rfl)
  · exact ((debounce_threshold_invariant 2 (by decide) (by decide)
      ⟨true, ⟨0, 0, 0, 0⟩, 0, ⟨.idle, "", 0⟩⟩ rfl rfl
      [⟨.studying, "ok", 0.9⟩, ⟨.distracted, "phone", 0.8⟩]
      ⟨.absent, "gone", 0.7⟩).1 (by decide)).2 (by decide)

/-- Claim C7: a raw result arriving while monitoring is off is ignored
entirely — the whole App state (statistics, counter, stable result) is
unchanged. -/
theorem inactive_session_ignores_ingestion (s : Nat) (st : AppState)
    (r : AnalysisResult) (h : st.isMonitoring = false) :
    handleStatusChange s st r = st := by
  simp [handleStatusChange, h]

/-- Concrete instance of C7: a late Distracted result after stop changes
nothing. -/
theorem inactive_session_ignores_ingestion_witness :
    handleStatusChange 2 ⟨false, ⟨3, 1, 0, 4⟩, 1, ⟨.studying, "ok", 0.9⟩⟩
        ⟨.distracted, "phone", 0.8⟩ =
      ⟨false, ⟨3, 1, 0, 4⟩, 1, ⟨.studying, "ok", 0.9⟩⟩ :=
  inactive_session_ignores_ingestion 2
    ⟨false, ⟨3, 1, 0, 4⟩, 1, ⟨.studying, "ok", 0.9⟩⟩
    ⟨.distracted, "phone", 0.8⟩ rfl

/-- Claim C10: once the consecutive-bad counter has reached the
sensitivity threshold, a further Distracted/Absent raw result updates the
stable result immediately (the counter keeps growing rather than being
reset), so the stable status can switch directly between Distracted and
Absent on a single raw result. -/
theorem bad_status_switches_without_redebounce (s : Nat) (st : AppState)
    (r : AnalysisResult) (h : st.isMonitoring = true)
    (hb : isBad r.status = true) (hge : s ≤ st.consecutiveBad) :
    (handleStatusChange s st r).currentResult = r ∧
      (handleStatusChange s st r).consecutiveBad = st.consecutiveBad + 1 := by
  refine ⟨handleStatusChange_current_bad_ge s st r h hb
    (Nat.le_succ_of_le hge), ?_⟩
  rw [handleStatusChange_consecutive s st r h, if_pos hb]

/-- Concrete instance of C10: sensitivity 2, stable result Distracted with
counter already at 2; a single Absent raw result flips the stable result
straight to Absent. -/
theorem bad_status_switches_without_redebounce_witness :
    (handleStatusChange 2 ⟨true, ⟨0, 2, 0, 2⟩, 2, ⟨.distracted, "phone", 0.8⟩⟩
        ⟨.absent, "gone", 0.7⟩).currentResult = ⟨.absent, "gone", 0.7⟩ :=
  (bad_status_switches_without_redebounce 2
    ⟨true, ⟨0, 2, 0, 2⟩, 2, ⟨.distracted, "phone", 0.8⟩⟩
    ⟨.absent, "gone", 0.7⟩ rfl rfl (by decide)).1

/-! ### Statistics lemmas -/

theorem handleStatusChange_stats (s : Nat) (st : AppState)
    (r : AnalysisResult) (h : st.isMonitoring = true) :
    (handleStatusChange s st r).stats = bumpStats st.stats r.status := by
  by_cases hb : isBad r.status = true <;>
    by_cases hle : s ≤ st.consecutiveBad + 1 <;>
      simp [handleStatusChange, h, hb, hle]

theorem countStatus_append (x : StudyStatus) (a b : List StudyStatus) :
    countStatus x (a ++ b) = countStatus x a + countStatus x b := by
  induction a with
  | nil => simp [countStatus]
  | cons y t ih => simp [countStatus, ih]; omega

theorem length_eq_countStatus_sum (l : List StudyStatus) :
    l.length = countStatus .studying l + countStatus .distracted l +
      countStatus .absent l + countStatus .idle l := by
  induction l with
  | nil => rfl
  | cons y t ih => cases y <;> simp [countStatus, ih] <;> omega

theorem ingestAll_stats (s : Nat) (st : AppState)
    (h : st.isMonitoring = true) (l : List AnalysisResult) :
    (ingestAll s st l).stats =
      ⟨st.stats.studying + countStatus .studying (l.map AnalysisResult.status),
       st.stats.distracted + countStatus .distracted (l.map AnalysisResult.status),
       st.stats.absent + countStatus .absent (l.map AnalysisResult.status),
       st.stats.total + l.length⟩ := by
  induction l using List.reverseRecOn with
  | nil =>
    show st.stats = _
    cases st.stats
    simp [countStatus]
  | append_singleton t r ih =>
    have hm : (ingestAll s st t).isMonitoring = true := by
      rw [ingestAll_isMonitoring]; exact h
    rw [ingestAll_append_singleton, handleStatusChange_stats _ _ _ hm, ih]
    cases hr : r.status <;>
      simp [bumpStats, List.map_append, hr, countStatus_append, countStatus] <;>
        omega

/-- Claim C3: with a session active, from session start every ingested raw
result increments `total` by exactly 1; the `studying`/`distracted`/`absent`
buckets count exactly the raw results carrying that very status (so the
bucket matching the raw status, and no other, is incremented; Idle
results land in no bucket), and
`total = studying + distracted + absent + (number of Idle results)` holds
after every ingestion. -/
theorem session_stats_accounting (s : Nat) (st0 : AppState)
    (l : List AnalysisResult) (r : AnalysisResult) :
    (ingestAll s (startSession st0) l).stats.total = l.length ∧
    (ingestAll s (startSession st0) l).stats.studying =
      countStatus .studying (l.map AnalysisResult.status) ∧
    (ingestAll s (startSession st0) l).stats.distracted =
      countStatus .distracted (l.map AnalysisResult.status) ∧
    (ingestAll s (startSession st0) l).stats.absent =
      countStatus .absent (l.map AnalysisResult.status) ∧
    (ingestAll s (startSession st0) l).stats.total =
      (ingestAll s (startSession st0) l).stats.studying +
        (ingestAll s (startSession st0) l).stats.distracted +
        (ingestAll s (startSession st0) l).stats.absent +
        countStatus .idle (l.map AnalysisResult.status) ∧
    (ingestAll s (startSession st0) (l ++ [r])).stats.total =
      (ingestAll s (startSession st0) l).stats.total + 1 := by
  have hm : (startSession st0).isMonitoring = true := rfl
  have h1 := ingestAll_stats s (startSession st0) hm l
  have h2 := ingestAll_stats s (startSession st0) hm (l ++ [r])
  have hlen := length_eq_countStatus_sum (l.map AnalysisResult.status)
  rw [List.length_map] at hlen
  have hz : (startSession st0).stats = (⟨0, 0, 0, 0⟩ : SessionStats) := rfl
  simp only [hz, Nat.zero_add] at h1 h2
  refine ⟨by simp [h1], by simp [h1], by simp [h1], by simp [h1], ?_,
    by simp [h1, h2]⟩
  simp [h1]
  omega

/-! ### Focus-score lemmas -/

/-- Claim C4: the focus score computed at session stop equals
`round(100 * studying / total)` for `total > 0`, equals `0` for
`total = 0`, and (whenever `studying ≤ total`) lies in `[0, 100]`. -/
theorem focusScore_formula_and_range (stats : SessionStats) :
    (0 < stats.total →
      focusScore stats = round ((100 * (stats.studying : ℚ)) / (stats.total : ℚ))) ∧
    (stats.total = 0 → focusScore stats = 0) ∧
    (stats.studying ≤ stats.total →
      0 ≤ focusScore stats ∧ focusScore stats ≤ 100) := by
  refine ⟨fun ht => ?_, fun ht => by simp [focusScore, ht], fun hle => ?_⟩
  · rw [focusScore, if_pos ht]
    congr 1
    ring
  · rcases Nat.eq_zero_or_pos stats.total with ht | ht
    · simp [focusScore, ht]
    · have htq : (0 : ℚ) < (stats.total : ℚ) := by exact_mod_cast ht
      have hq0 : (0 : ℚ) ≤ ((stats.studying : ℚ) / (stats.total : ℚ)) * 100 := by
        positivity
      have hq100 : ((stats.studying : ℚ) / (stats.total : ℚ)) * 100 ≤ 100 := by
        have hd : ((stats.studying : ℚ) / (stats.total : ℚ)) ≤ 1 := by
          rw [div_le_one htq]
          exact_mod_cast hle
        nlinarith
      rw [focusScore, if_pos ht, round_eq]
      constructor
      · rw [Int.le_floor]
        push_cast
        linarith
      · have hfl : ⌊((stats.studying : ℚ) / (stats.total : ℚ)) * 100 + 1 / 2⌋ <
            (101 : ℤ) := by
          apply Int.floor_lt.mpr
          push_cast
          linarith
        omega

/-- Concrete instance of C4: 3 Studying results out of 4 total give a
focus score of 75, which lies in `[0, 100]`. -/
theorem focusScore_formula_and_range_witness :
    0 ≤ focusScore ⟨3, 1, 0, 4⟩ ∧ focusScore ⟨3, 1, 0, 4⟩ ≤ 100 :=
  (focusScore_formula_and_range ⟨3, 1, 0, 4⟩).2.2 (by decide)

/-! ### Sampler lemmas -/

/-- Claim C5: a classification call starts only when no call is in flight
(and the started call sets the in-flight guard), and a manual trigger
while a call is in flight or while monitoring is inactive is a silent
no-op: no call starts and the state is unchanged. -/
theorem single_flight_and_manual_noop (s : SamplerState) (e : SamplerEvent) :
    ((samplerStep s e).2 = true →
      s.inFlight = false ∧ (samplerStep s e).1.inFlight = true) ∧
    (s.inFlight = true ∨ s.monitoring = false →
      samplerStep s .manual = (s, false)) := by
  obtain ⟨m, f, rr, v⟩ := s
  cases e <;> cases m <;> cases f <;> cases rr <;> cases v <;>
    simp [samplerStep, captureAndAnalyze, triggerAnalysis]

/-- Concrete instance of C5: with a capture in flight, a manual trigger
changes nothing and starts nothing; and a tick that does start a call
sets the in-flight guard. -/
theorem single_flight_and_manual_noop_witness :
    samplerStep ⟨true, true, true, true⟩ .manual = (⟨true, true, true, true⟩, false) ∧
    ((samplerStep ⟨true, false, true, true⟩ .tick).2 = true →
      (⟨true, false, true, true⟩ : SamplerState).inFlight = false ∧
        (samplerStep ⟨true, false, true, true⟩ .tick).1.inFlight = true) := by
  constructor
  · exact (single_flight_and_manual_noop ⟨true, true, true, true⟩ .manual).2
      (Or.inl rfl)
  · exact (single_flight_and_manual_noop ⟨true, false, true, true⟩ .tick).1

/-! ### Audio-ducking lemmas -/

/-- Claim C8: for a base volume in `[0, 1]` the target playback volume is
`base * 0.2` exactly when the stable status is Distracted or Absent and
`base` otherwise; with base volume `0.5` the stable sequence
Studying, Distracted, Studying yields targets `0.5, 0.1, 0.5`. -/
theorem target_volume_ducking (b : ℚ) (status : StudyStatus)
    (h0 : 0 ≤ b) (h1 : b ≤ 1) :
    ((status = .distracted ∨ status = .absent) →
      getTargetVolume status b = b * (0.2 : ℚ)) ∧
    (¬(status = .distracted ∨ status = .absent) →
      getTargetVolume status b = b) ∧
    ([getTargetVolume .studying (0.5 : ℚ),
      getTargetVolume .distracted (0.5 : ℚ),
      getTargetVolume .studying (0.5 : ℚ)] =
        [(0.5 : ℚ), (0.1 : ℚ), (0.5 : ℚ)]) := by
  refine ⟨fun hb => by simp [getTargetVolume, hb],
    fun hb => by simp [getTargetVolume, hb], ?_⟩
  simp [getTargetVolume]
  norm_num

/-- Concrete instance of C8: base volume `0.5` is in `[0, 1]` and a
Distracted stable status ducks it to `0.1`. -/
theorem target_volume_ducking_witness :
    getTargetVolume .distracted (0.5 : ℚ) = (0.5 : ℚ) * (0.2 : ℚ) :=
  (target_volume_ducking (0.5 : ℚ) .distracted (by norm_num) (by norm_num)).1
    (Or.inl rfl)

/-! ### Classification-client lemmas -/

theorem analyzeLoop_parsed_or_synthetic (gen : Nat → String → GenOutcome)
    (parse : String → Except JsError AnalysisResult) (payload : String) :
    ∀ fuel attempt,
      (∃ i r, runAttempt gen parse payload i = .ok r ∧
        (analyzeLoop gen parse payload attempt fuel).result = r) ∨
      syntheticFallback (analyzeLoop gen parse payload attempt fuel).result := by
  intro fuel
  induction fuel with
  | zero =>
    intro attempt
    exact Or.inr ⟨rfl, rfl, Or.inr (Or.inr rfl)⟩
  | succ n ih =>
    intro attempt
    cases hra : runAttempt gen parse payload attempt with
    | ok r =>
      exact Or.inl ⟨attempt, r, hra, by simp [analyzeLoop, hra]⟩
    | caught e =>
      by_cases hc : (isOverloaded e && decide (attempt < MAX_RETRIES - 1)) = true
      · have hres : (analyzeLoop gen parse payload attempt (n + 1)).result =
            (analyzeLoop gen parse payload (attempt + 1) n).result := by
          simp [analyzeLoop, hra, hc]
        rcases ih (attempt + 1) with ⟨i, r, h1, h2⟩ | hs
        · exact Or.inl ⟨i, r, h1, by rw [hres, h2]⟩
        · exact Or.inr (by rw [hres]; exact hs)
      · right
        have hres : (analyzeLoop gen parse payload attempt (n + 1)).result =
            ⟨.idle,
              if isOverloaded e then "Server busy, retrying..."
              else "Analysis failed", 0⟩ := by
          simp [analyzeLoop, hra, hc]
        rw [hres]
        by_cases ho : isOverloaded e = true
        · exact ⟨rfl, rfl, by rw [if_pos ho]; exact Or.inr (Or.inl rfl)⟩
        · exact ⟨rfl, rfl, by rw [if_neg ho]; exact Or.inl rfl⟩

/-- Claim C6: `analyzeFrame` always resolves to a result: for every oracle
behavior of the external classifier and of `JSON.parse`, the returned
value is either a successfully parsed classification or the synthetic
`{status: Idle, reason: <fallback message>, confidence: 0}` result — no
error propagates to the caller. -/
theorem analyzeFrame_never_raises (gen : Nat → String → GenOutcome)
    (parse : String → Except JsError AnalysisResult) (base64Image : String) :
    (∃ i r, runAttempt gen parse (cleanBase64 base64Image) i = .ok r ∧
      (analyzeFrame gen parse base64Image).result = r) ∨
    syntheticFallback (analyzeFrame gen parse base64Image).result :=
  analyzeLoop_parsed_or_synthetic gen parse (cleanBase64 base64Image)
    MAX_RETRIES 0

/-- Claim C2 counterexample: when every attempt rejects with a 503
"overloaded" error, `analyzeFrame` makes exactly 3 calls with delays
1000ms and 2000ms but resolves with reason "Server busy, retrying..." —
the `"Service unavailable"` return after the loop is unreachable, so the
claimed fallback result is not what the code produces. -/
theorem retry_fallback_reason_counterexample :
    analyzeFrame (fun _ _ => .threw ⟨some 503, none, some "overloaded"⟩)
        (fun _ => .error ⟨none, none, some "SyntaxError"⟩) "img" =
      ⟨⟨.idle, "Server busy, retrying...", 0⟩, 3, [1000, 2000]⟩ ∧
    ("Server busy, retrying..." : String) ≠ "Service unavailable" :=
  ⟨rfl, by decide⟩

/-- Claim C2 amended: when the classifier fails with a transient-overload
error on every attempt, `analyzeFrame` makes exactly 3 calls with
inter-attempt delays of 1000ms then 2000ms and then resolves to the
fallback `{status: Idle, reason: "Server busy, retrying...",
confidence: 0}`; a non-overload error on the first attempt causes an
immediate `{status: Idle, reason: "Analysis failed", confidence: 0}`
fallback after a single call, with no retry. -/
theorem retry_backoff_and_fallback (gen : Nat → String → GenOutcome)
    (parse : String → Except JsError AnalysisResult) (img : String) :
    ((∀ i p, ∃ e, gen i p = GenOutcome.threw e ∧ isOverloaded e = true) →
      analyzeFrame gen parse img =
        ⟨⟨.idle, "Server busy, retrying...", 0⟩, 3, [1000, 2000]⟩) ∧
    (∀ e, runAttempt gen parse (cleanBase64 img) 0 = .caught e →
      isOverloaded e = false →
      analyzeFrame gen parse img = ⟨⟨.idle, "Analysis failed", 0⟩, 1, []⟩) := by
  constructor
  · intro hov
    obtain ⟨e0, he0, ho0⟩ := hov 0 (cleanBase64 img)
    obtain ⟨e1, he1, ho1⟩ := hov 1 (cleanBase64 img)
    obtain ⟨e2, he2, ho2⟩ := hov 2 (cleanBase64 img)
    have h0 : runAttempt gen parse (cleanBase64 img) 0 = .caught e0 := by
      simp [runAttempt, he0]
    have h1 : runAttempt gen parse (cleanBase64 img) 1 = .caught e1 := by
      simp [runAttempt, he1]
    have h2 : runAttempt gen parse (cleanBase64 img) 2 = .caught e2 := by
      simp [runAttempt, he2]
    simp [analyzeFrame, MAX_RETRIES, analyzeLoop, h0, h1, h2, ho0, ho1, ho2]
  · intro e h0 hno
    simp [analyzeFrame, MAX_RETRIES, analyzeLoop, h0, hno]

/-- Concrete instance of the amended C2: an oracle that always rejects
with an "overloaded" message yields 3 calls, delays 1000 and 2000, and
the busy fallback. -/
theorem retry_backoff_and_fallback_witness :
    analyzeFrame (fun _ _ => .threw ⟨none, none, some "model is overloaded"⟩)
        (fun _ => .error ⟨none, none, none⟩) "img" =
      ⟨⟨.idle, "Server busy, retrying...", 0⟩, 3, [1000, 2000]⟩ :=
  (retry_backoff_and_fallback
    (fun _ _ => .threw ⟨none, none, some "model is overloaded"⟩)
    (fun _ => .error ⟨none, none, none⟩) "img").1
    (fun _ _ => ⟨⟨none, none, some "model is overloaded"⟩, rfl, by decide⟩)

/-- Claim C9 counterexample: an input carrying a `data:image/gif;base64,`
data-URI prefix is passed on unchanged — the prefix is not stripped, so
stripping does not happen regardless of the mime type. -/
theorem clean_base64_gif_counterexample :
    cleanBase64 "data:image/gif;base64,QUJD" = "data:image/gif;base64,QUJD" ∧
    strStarts (cleanBase64 "data:image/gif;base64,QUJD") "data:" = true ∧
    cleanBase64 "data:image/gif;base64,QUJD" ≠ "QUJD" :=
  ⟨rfl, rfl, by decide⟩

/-- Claim C9 amended: the classification client strips the data-URI
prefix exactly for the png, jpeg and jpg mime types; for those inputs the
payload `analyzeFrame` sends to the classifier is the bare base64
content. -/
theorem clean_base64_strips_supported_mimes (rest : String) :
    cleanBase64 ("data:image/png;base64," ++ rest) = rest ∧
    cleanBase64 ("data:image/jpeg;base64," ++ rest) = rest ∧
    cleanBase64 ("data:image/jpg;base64," ++ rest) = rest :=
  ⟨rfl, rfl, rfl⟩

end FocusGuardian
